import Mathlib

/-!
Verification of the two audio-visualization scripts of this repository:
`tool2.js` (wireframe-sphere pipeline) and the rose-petal script.

JavaScript numbers are modelled as `JSNum`: an exact rational together with
the three non-finite values `NaN`, `+Infinity` and `-Infinity` that the
scripts can produce through unguarded division (`sum / dataArray.length`
on an empty snapshot).  All magnitudes handled by the scripts are byte
values (`Uint8Array` entries), so snapshots are `List ℕ`.
-/

/-- A JavaScript number: `NaN`, `-Infinity`, `+Infinity`, or a finite value
(modelled exactly as a rational). -/
inductive JSNum where
  | nan
  | negInf
  | inf
  | num (q : ℚ)
deriving DecidableEq

/-- JavaScript division of two finite numbers: `a / 0` is `NaN` when `a = 0`
and a signed infinity otherwise (the divisors in the scripts are `+0`). -/
def jsDivQ (a b : ℚ) : JSNum :=
  if b = 0 then (if a = 0 then JSNum.nan else if 0 < a then JSNum.inf else JSNum.negInf)
  else JSNum.num (a / b)

/-- Division of a JavaScript number by a finite number. -/
def JSNum.divQ : JSNum → ℚ → JSNum
  | JSNum.nan, _ => JSNum.nan
  | JSNum.inf, b => if 0 ≤ b then JSNum.inf else JSNum.negInf
  | JSNum.negInf, b => if 0 ≤ b then JSNum.negInf else JSNum.inf
  | JSNum.num a, b => jsDivQ a b

/-- Multiplication of a JavaScript number by a finite number. -/
def JSNum.mulQ : JSNum → ℚ → JSNum
  | JSNum.nan, _ => JSNum.nan
  | JSNum.inf, q => if 0 < q then JSNum.inf else if q < 0 then JSNum.negInf else JSNum.nan
  | JSNum.negInf, q => if 0 < q then JSNum.negInf else if q < 0 then JSNum.inf else JSNum.nan
  | JSNum.num a, q => JSNum.num (a * q)

/-- `c - x` for a finite `c` and a JavaScript number `x`. -/
def jsSubQ (c : ℚ) : JSNum → JSNum
  | JSNum.nan => JSNum.nan
  | JSNum.inf => JSNum.negInf
  | JSNum.negInf => JSNum.inf
  | JSNum.num a => JSNum.num (c - a)

namespace Tool2

/-- `getAverageFrequency` of `tool2.js`:
`dataArray.reduce((a, b) => a + b, 0) / dataArray.length`. -/
def getAverageFrequency (dataArray : List ℕ) : JSNum :=
  jsDivQ (dataArray.sum : ℚ) (dataArray.length : ℚ)

/-- The numeric visual state of the sphere pipeline: the three scale
components, the material hue, the camera field of view and the two
rotation components mutated by `animate`. -/
structure Visual where
  scaleX : ℚ
  scaleY : ℚ
  scaleZ : ℚ
  hue : ℚ
  fov : ℚ
  rotX : ℚ
  rotY : ℚ
deriving DecidableEq

/-- The numeric body of one `animate` tick of `tool2.js`, given the average
frequency of the current snapshot and the current pointer state:
`sphere.scale.set(1 + avg/128, ...)`, `setHSL(avg/256, 1, 0.5)`,
`camera.fov = 750 + avg*0.01`,
`rotation.x += (mouseY - rotation.x) * 0.05`,
`rotation.y += (mouseX - rotation.y) * 0.05`. -/
def animateVisual (averageFrequency mouseX mouseY : ℚ) (v : Visual) : Visual :=
  { scaleX := 1 + averageFrequency / 128
    scaleY := 1 + averageFrequency / 128
    scaleZ := 1 + averageFrequency / 128
    hue := averageFrequency / 256
    fov := 750 + averageFrequency * (1/100)
    rotX := v.rotX + (mouseY - v.rotX) * (5/100)
    rotY := v.rotY + (mouseX - v.rotY) * (5/100) }

/-- `k` consecutive `animate` ticks with the snapshot average and the
pointer held constant. -/
def animateRun (averageFrequency mouseX mouseY : ℚ) (v : Visual) : ℕ → Visual
  | 0 => v
  | k + 1 => animateVisual averageFrequency mouseX mouseY
      (animateRun averageFrequency mouseX mouseY v k)

/-- The visual state at page load (`mouseX = mouseY = 0`, identity scale,
rotation 0). -/
def initialVisual : Visual :=
  { scaleX := 1, scaleY := 1, scaleZ := 1, hue := 0, fov := 75, rotX := 0, rotY := 0 }

/-- Bookkeeping state of the control flow of the sphere pipeline: which globals
are set (`analyser`, `frequencyData`), how many `console.error` diagnostics
were printed, how many animation callbacks were requested via
`requestAnimationFrame`, how many exceptions escaped an `animate` call,
how many `renderer.render` calls completed, whether the canvas of the renderer
was appended to the document, and whether the start button is visible. -/
structure SphereSt where
  analyserSet : Bool
  frequencyData : Option ℕ
  consoleErrors : ℕ
  rafRequests : ℕ
  exceptionsEscaped : ℕ
  renders : ℕ
  canvasAppended : Bool
  startButtonVisible : Bool
deriving DecidableEq

/-- The page state before any interaction. -/
def initSt : SphereSt :=
  { analyserSet := false, frequencyData := none, consoleErrors := 0, rafRequests := 0
    exceptionsEscaped := 0, renders := 0, canvasAppended := false, startButtonVisible := true }

/-- `initAudio` of `tool2.js`: the analyser is created before the `try`
block, so it is set in every run; on success (`granted`) the
`getUserMedia` promise resolves and `frequencyData` becomes a
`Uint8Array(analyser.frequencyBinCount)` (fftSize 256, so 128 bins); on
rejection the `catch` block logs one diagnostic and `frequencyData` stays
`undefined`.  The function itself never throws. -/
def initAudio (granted : Bool) (s : SphereSt) : SphereSt :=
  if granted then
    { s with analyserSet := true, frequencyData := some 128 }
  else
    { s with analyserSet := true, consoleErrors := s.consoleErrors + 1 }

/-- One `animate` call of `tool2.js` as a control-flow step.  It first
requests the next animation callback, then (since `analyser` is always
set once `initAudio` ran) calls `analyser.getByteFrequencyData(frequencyData)`:
when `frequencyData` is `undefined` this throws a `TypeError` that escapes
the call and `renderer.render` is never reached; otherwise the tick
completes with one render.  Returns the new state and whether the call
threw. -/
def animateStep (s : SphereSt) : SphereSt × Bool :=
  let s1 : SphereSt := { s with rafRequests := s.rafRequests + 1 }
  if s1.analyserSet then
    match s1.frequencyData with
    | none => ({ s1 with exceptionsEscaped := s1.exceptionsEscaped + 1 }, true)
    | some _ => ({ s1 with renders := s1.renders + 1 }, false)
  else ({ s1 with renders := s1.renders + 1 }, false)

/-- `initThreeJS` of `tool2.js`: appends the canvas of the renderer to the
document body and ends with a first (synchronous) call of `animate`. -/
def initThreeJS (s : SphereSt) : SphereSt × Bool :=
  animateStep { s with canvasAppended := true }

/-- The start-button click handler of `tool2.js`:
`await initAudio(); initThreeJS();` then the line hiding the start button.
When the first `animate` call inside `initThreeJS` throws, the handler
aborts before the line hiding the button. -/
def startClick (granted : Bool) (s : SphereSt) : SphereSt :=
  let s1 := initAudio granted s
  let r := initThreeJS s1
  if r.2 then r.1 else { r.1 with startButtonVisible := false }

/-- `k` further animation callbacks delivered by the host after the click. -/
def rafTicks (s : SphereSt) : ℕ → SphereSt
  | 0 => s
  | k + 1 => (animateStep (rafTicks s k)).1

/-- The sphere-pipeline state after a click whose audio request was denied,
followed by `k` host animation callbacks. -/
def sphereFailRun (k : ℕ) : SphereSt :=
  rafTicks (startClick false initSt) k

end Tool2

namespace Rose

/-- `updateAudioData` of the rose script, as the new value of the
persistent `volume`: `sum / dataArray.length / 128.0`. -/
def updateAudioData (dataArray : List ℕ) : JSNum :=
  (jsDivQ (dataArray.sum : ℚ) (dataArray.length : ℚ)).divQ 128

/-- The hue computed by `getPitchColor` of the rose script:
`maxIndex = dataArray.indexOf(Math.max(...dataArray))`,
`hue = (maxIndex / dataArray.length) * 360`.  For a nonempty byte array,
`Math.max(...dataArray)` equals `dataArray.foldr max 0` (all entries are
naturals) and `Array.indexOf` returns the first index of that value.
(The empty-array case, where `Math.max()` is `-Infinity`, is outside every
use in the script: the bin count of the analyser is 1024.) -/
def getPitchColorHue (dataArray : List ℕ) : ℚ :=
  let maxIndex := dataArray.indexOf (dataArray.foldr max 0)
  ((maxIndex : ℚ) / (dataArray.length : ℚ)) * 360

/-- Persistent audio state of the rose script: the `volume` and
`lastUpdateTime` globals. -/
structure AudioSt where
  volume : JSNum
  lastUpdateTime : ℚ
deriving DecidableEq

/-- Initial values: `let volume = 0; let lastUpdateTime = 0`. -/
def initAudioSt : AudioSt :=
  { volume := JSNum.num 0, lastUpdateTime := 0 }

/-- The observable outcome of one `drawAnimation` tick: the new persistent
state, the delay passed to `setTimeout`, and whether the next animation
callback was requested (the `setTimeout(() => requestAnimationFrame(...))`
line runs unconditionally, with no guard on the sign of the delay). -/
structure TickResult where
  state : AudioSt
  delay : JSNum
  nextCallbackRequested : Bool
deriving DecidableEq

/-- One `drawAnimation` tick of the rose script, given the current time and
the frequency snapshot read by `updateAudioData`: it updates
`lastUpdateTime`, recomputes `volume`, and schedules the next tick after
`10 - (volume * 900)` milliseconds. -/
def drawAnimation (currentTime : ℚ) (freqData : List ℕ) (s : AudioSt) : TickResult :=
  let newVolume := updateAudioData freqData
  { state := { volume := newVolume, lastUpdateTime := currentTime }
    delay := jsSubQ 10 (newVolume.mulQ 900)
    nextCallbackRequested := true }

/-- Bookkeeping state of the control flow of the rose page. -/
structure PageSt where
  consoleErrors : ℕ
  startButtonVisible : Bool
  animationStarted : Bool
  unhandledRejection : Bool
deriving DecidableEq

/-- The rose page before any interaction. -/
def initPageSt : PageSt :=
  { consoleErrors := 0, startButtonVisible := true
    animationStarted := false, unhandledRejection := false }

/-- The start-button click handler of the rose script: it hides the button
unconditionally; `getUserMedia(...).then(...)` starts `drawAnimation` on
success and has no rejection handler at all, so a denial produces an
unhandled promise rejection, logs nothing, and never starts the
animation. -/
def startClick (granted : Bool) (s : PageSt) : PageSt :=
  let s1 : PageSt := { s with startButtonVisible := false }
  if granted then { s1 with animationStarted := true }
  else { s1 with unhandledRejection := true }

end Rose

/-- The end-to-end scenario snapshot: 2048 bytes, all 0 except index
1024 = 255. -/
def snapshot2048 : List ℕ :=
  List.replicate 1024 0 ++ 255 :: List.replicate 1023 0

section Helpers

/-- The sum of a list of equal naturals. -/
lemma sum_of_all_eq {l : List ℕ} {c : ℕ} (h : ∀ x ∈ l, x = c) :
    l.sum = c * l.length := by
  induction l with
  | nil => simp
  | cons a t ih =>
    simp only [List.sum_cons, List.length_cons]
    rw [h a (List.mem_cons_self a t), ih (fun x hx => h x (List.mem_cons_of_mem a hx))]
    ring

/-- On a nonempty snapshot the sphere average is the finite arithmetic mean. -/
lemma getAverageFrequency_of_ne_nil {l : List ℕ} (h : l ≠ []) :
    Tool2.getAverageFrequency l = JSNum.num ((l.sum : ℚ) / (l.length : ℚ)) := by
  have hl : (l.length : ℚ) ≠ 0 := by
    exact_mod_cast (Nat.pos_of_ne_zero (fun h0 => h (List.length_eq_zero.mp h0))).ne'
  simp [Tool2.getAverageFrequency, jsDivQ, hl]

/-- The arithmetic mean of a constant nonempty list of naturals. -/
lemma mean_of_all_eq {l : List ℕ} {c : ℕ} (h : l ≠ []) (hc : ∀ x ∈ l, x = c) :
    (l.sum : ℚ) / (l.length : ℚ) = (c : ℚ) := by
  have hl : (l.length : ℚ) ≠ 0 := by
    exact_mod_cast (Nat.pos_of_ne_zero (fun h0 => h (List.length_eq_zero.mp h0))).ne'
  rw [sum_of_all_eq hc]
  push_cast
  field_simp

end Helpers

/-- C2: on every nonempty snapshot, `getAverageFrequency` returns the
finite arithmetic mean of the samples — it returns 0 on an all-zero
snapshot and 255 on an all-255 snapshot — and the mean feeding the
normalization in `updateAudioData` is that same arithmetic mean. -/
theorem claim_C2_averageMagnitude (l : List ℕ) (h : l ≠ []) :
    Tool2.getAverageFrequency l = JSNum.num ((l.sum : ℚ) / (l.length : ℚ)) ∧
    ((∀ x ∈ l, x = 0) → Tool2.getAverageFrequency l = JSNum.num 0) ∧
    ((∀ x ∈ l, x = 255) → Tool2.getAverageFrequency l = JSNum.num 255) ∧
    Rose.updateAudioData l = JSNum.num ((l.sum : ℚ) / (l.length : ℚ) / 128) := by
  have hl : (l.length : ℚ) ≠ 0 := by
    exact_mod_cast (Nat.pos_of_ne_zero (fun h0 => h (List.length_eq_zero.mp h0))).ne'
  refine ⟨getAverageFrequency_of_ne_nil h, ?_, ?_, ?_⟩
  · intro h0
    rw [getAverageFrequency_of_ne_nil h, mean_of_all_eq h h0]
    norm_num
  · intro h255
    rw [getAverageFrequency_of_ne_nil h, mean_of_all_eq h h255]
    norm_num
  · simp only [Rose.updateAudioData, jsDivQ, if_neg hl, JSNum.divQ]
    norm_num

/-- Witness for C2 at the concrete snapshots `[0, 0, 0]` and `[255, 255]`. -/
theorem claim_C2_averageMagnitude_witness :
    Tool2.getAverageFrequency [0, 0, 0] = JSNum.num 0 ∧
    Tool2.getAverageFrequency [255, 255] = JSNum.num 255 :=
  ⟨(claim_C2_averageMagnitude [0, 0, 0] (by decide)).2.1 (by decide),
   (claim_C2_averageMagnitude [255, 255] (by decide)).2.2.1 (by decide)⟩

/-- C10: on the empty snapshot both mean computations divide zero by zero
and yield `NaN` (a non-numeric value, not an error); neither pipeline
guards the empty case. -/
theorem claim_C10_empty_snapshot_nan :
    Tool2.getAverageFrequency [] = JSNum.nan ∧ Rose.updateAudioData [] = JSNum.nan := by
  constructor
  · simp [Tool2.getAverageFrequency, jsDivQ]
  · simp [Rose.updateAudioData, jsDivQ, JSNum.divQ]

/-- C5: each `animate` tick sets the uniform sphere scale to
`1 + avg / 128` (all three components, unclamped), the scale is
monotonically non-decreasing in the average magnitude, and it is exactly 1
when the average magnitude is 0. -/
theorem claim_C5_sphere_scale (avg mouseX mouseY : ℚ) (v : Tool2.Visual) (havg : 0 ≤ avg) :
    ((Tool2.animateVisual avg mouseX mouseY v).scaleX = 1 + avg / 128 ∧
     (Tool2.animateVisual avg mouseX mouseY v).scaleY = 1 + avg / 128 ∧
     (Tool2.animateVisual avg mouseX mouseY v).scaleZ = 1 + avg / 128) ∧
    (∀ avg2 : ℚ, avg ≤ avg2 →
      (Tool2.animateVisual avg mouseX mouseY v).scaleX ≤
        (Tool2.animateVisual avg2 mouseX mouseY v).scaleX) ∧
    (Tool2.animateVisual 0 mouseX mouseY v).scaleX = 1 := by
  refine ⟨⟨rfl, rfl, rfl⟩, ?_, by norm_num [Tool2.animateVisual]⟩
  intro avg2 hle
  simp only [Tool2.animateVisual]
  linarith

/-- Witness for C5 at `avg = 0 ≤ 255` on the initial visual state. -/
theorem claim_C5_sphere_scale_witness :
    (Tool2.animateVisual 0 0 0 Tool2.initialVisual).scaleX = 1 + (0 : ℚ) / 128 ∧
    (Tool2.animateVisual 0 0 0 Tool2.initialVisual).scaleX ≤
      (Tool2.animateVisual 255 0 0 Tool2.initialVisual).scaleX :=
  ⟨(claim_C5_sphere_scale 0 0 0 Tool2.initialVisual le_rfl).1.1,
   (claim_C5_sphere_scale 0 0 0 Tool2.initialVisual le_rfl).2.1 255 (by norm_num)⟩

section RotationHelpers

/-- Closed form of the eased rotation around the x axis: with the pointer
held constant, `k` ticks leave `rotX = mouseY - (mouseY - rotX0) * (19/20)^k`. -/
lemma animateRun_rotX (avg mouseX mouseY : ℚ) (v : Tool2.Visual) (k : ℕ) :
    (Tool2.animateRun avg mouseX mouseY v k).rotX
      = mouseY - (mouseY - v.rotX) * (19/20) ^ k := by
  induction k with
  | zero => simp [Tool2.animateRun]
  | succ m ih =>
    simp only [Tool2.animateRun, Tool2.animateVisual]
    rw [ih, pow_succ]
    ring

/-- Closed form of the eased rotation around the y axis. -/
lemma animateRun_rotY (avg mouseX mouseY : ℚ) (v : Tool2.Visual) (k : ℕ) :
    (Tool2.animateRun avg mouseX mouseY v k).rotY
      = mouseX - (mouseX - v.rotY) * (19/20) ^ k := by
  induction k with
  | zero => simp [Tool2.animateRun]
  | succ m ih =>
    simp only [Tool2.animateRun, Tool2.animateVisual]
    rw [ih, pow_succ]
    ring

end RotationHelpers

/-- C4: one tick moves each rotation component by 5 percent of its distance
to the pointer target; after `k` ticks with constant target the rotation is
`T - (T - R0) * (19/20)^k`, and it never overshoots the target (it stays on
the initial side of the target for every `k`). -/
theorem claim_C4_rotation_smoothing (avg mouseX mouseY : ℚ) (v : Tool2.Visual) (k : ℕ) :
    (Tool2.animateRun avg mouseX mouseY v 1).rotX
      = v.rotX + (mouseY - v.rotX) * (5/100) ∧
    (Tool2.animateRun avg mouseX mouseY v k).rotX
      = mouseY - (mouseY - v.rotX) * (19/20) ^ k ∧
    (Tool2.animateRun avg mouseX mouseY v k).rotY
      = mouseX - (mouseX - v.rotY) * (19/20) ^ k ∧
    (v.rotX ≤ mouseY → (Tool2.animateRun avg mouseX mouseY v k).rotX ≤ mouseY) ∧
    (mouseY ≤ v.rotX → mouseY ≤ (Tool2.animateRun avg mouseX mouseY v k).rotX) ∧
    (v.rotY ≤ mouseX → (Tool2.animateRun avg mouseX mouseY v k).rotY ≤ mouseX) ∧
    (mouseX ≤ v.rotY → mouseX ≤ (Tool2.animateRun avg mouseX mouseY v k).rotY) := by
  have hq : (0 : ℚ) ≤ (19/20) ^ k := pow_nonneg (by norm_num) k
  refine ⟨?_, animateRun_rotX avg mouseX mouseY v k, animateRun_rotY avg mouseX mouseY v k,
    ?_, ?_, ?_, ?_⟩
  · simp only [Tool2.animateRun, Tool2.animateVisual]
  · intro hle
    rw [animateRun_rotX]
    nlinarith
  · intro hle
    rw [animateRun_rotX]
    nlinarith
  · intro hle
    rw [animateRun_rotY]
    nlinarith
  · intro hle
    rw [animateRun_rotY]
    nlinarith

/-- Witness for C4: two ticks from rotation 0 toward pointer target 1. -/
theorem claim_C4_rotation_smoothing_witness :
    (Tool2.animateRun 0 1 1 Tool2.initialVisual 2).rotX
      = 1 - (1 - Tool2.initialVisual.rotX) * (19/20) ^ 2 ∧
    (Tool2.animateRun 0 1 1 Tool2.initialVisual 2).rotX ≤ 1 ∧
    (Tool2.animateRun 0 1 1 Tool2.initialVisual 2).rotY ≤ 1 :=
  ⟨(claim_C4_rotation_smoothing 0 1 1 Tool2.initialVisual 2).2.1,
   (claim_C4_rotation_smoothing 0 1 1 Tool2.initialVisual 2).2.2.2.1
     (by norm_num [Tool2.initialVisual]),
   (claim_C4_rotation_smoothing 0 1 1 Tool2.initialVisual 2).2.2.2.2.2.1
     (by norm_num [Tool2.initialVisual])⟩

section FailureRunHelpers

/-- The sphere-pipeline state reached by a denied-audio click followed by
`k` host animation callbacks: the diagnostic count stays at 1, every tick
requests another callback and throws, nothing renders, the canvas is
appended, and the start button stays visible (the click handler aborted
before hiding it). -/
lemma sphereFailRun_spec (k : ℕ) :
    Tool2.sphereFailRun k =
      { analyserSet := true, frequencyData := none, consoleErrors := 1
        rafRequests := k + 1, exceptionsEscaped := k + 1, renders := 0
        canvasAppended := true, startButtonVisible := true } := by
  induction k with
  | zero => decide
  | succ m ih =>
    show (Tool2.animateStep (Tool2.sphereFailRun m)).1 = _
    rw [ih]
    rfl

end FailureRunHelpers

/-- C1 counterexample: in a denied-audio run the sphere pipeline has already
requested an animation callback during the click itself, and the rose
pipeline has logged no diagnostic at all. -/
theorem claim_C1_counterexample :
    (Tool2.startClick false Tool2.initSt).rafRequests = 1 ∧
    (Rose.startClick false Rose.initPageSt).consoleErrors = 0 := by
  decide

/-- C1 (amended): in every denied-audio run, the sphere pipeline logs
exactly one diagnostic but requests an animation callback on the click and
on each of the `k` subsequent ticks, every one of those calls letting an
exception escape to the host and none rendering; the rose pipeline never
schedules an animation callback but also logs no diagnostic, the rejection
remaining unhandled. -/
theorem claim_C1_denied_run (k : ℕ) :
    (Tool2.sphereFailRun k).consoleErrors = 1 ∧
    (Tool2.sphereFailRun k).rafRequests = k + 1 ∧
    (Tool2.sphereFailRun k).exceptionsEscaped = k + 1 ∧
    (Tool2.sphereFailRun k).renders = 0 ∧
    (Rose.startClick false Rose.initPageSt).animationStarted = false ∧
    (Rose.startClick false Rose.initPageSt).consoleErrors = 0 ∧
    (Rose.startClick false Rose.initPageSt).unhandledRejection = true := by
  rw [sphereFailRun_spec k]
  refine ⟨rfl, rfl, rfl, rfl, ?_, ?_, ?_⟩ <;> decide

/-- C9 counterexample: in a denied-audio sphere run the pipeline is not
left un-started and there is a user-visible effect beyond the start
control: the renderer canvas is appended to the document and an animation
callback is requested. -/
theorem claim_C9_counterexample :
    (Tool2.startClick false Tool2.initSt).canvasAppended = true ∧
    (Tool2.startClick false Tool2.initSt).exceptionsEscaped = 1 := by
  decide

/-- C9 (amended): in every denied-audio sphere run exactly one diagnostic
is logged and the start control stays visible, but the pipeline is not left
un-started: the renderer canvas is appended, an animation callback is
requested on the click and on every subsequent tick, and each tick throws
before rendering, so nothing is ever rendered. -/
theorem claim_C9_sphere_error_surfacing (k : ℕ) :
    (Tool2.sphereFailRun k).consoleErrors = 1 ∧
    (Tool2.sphereFailRun k).startButtonVisible = true ∧
    (Tool2.sphereFailRun k).canvasAppended = true ∧
    (Tool2.sphereFailRun k).rafRequests = k + 1 ∧
    (Tool2.sphereFailRun k).renders = 0 := by
  rw [sphereFailRun_spec k]
  exact ⟨rfl, rfl, rfl, rfl, rfl⟩

section MaxIndexHelpers

/-- Every element of a list of naturals is bounded by its `foldr max 0`. -/
lemma le_foldr_max {l : List ℕ} {x : ℕ} (hx : x ∈ l) : x ≤ l.foldr max 0 := by
  induction l with
  | nil => cases hx
  | cons a t ih =>
    rcases List.mem_cons.mp hx with h | h
    · subst h
      exact le_max_left _ _
    · exact le_trans (ih h) (le_max_right _ _)

/-- On a nonempty list of naturals, `foldr max 0` is attained by an element. -/
lemma foldr_max_mem (l : List ℕ) (h : l ≠ []) : l.foldr max 0 ∈ l := by
  induction l with
  | nil => exact absurd rfl h
  | cons a t ih =>
    cases t with
    | nil => simp
    | cons b u =>
      rcases max_choice a ((b :: u).foldr max 0) with hm | hm
      · rw [List.foldr_cons, hm]
        exact List.mem_cons_self a _
      · rw [List.foldr_cons, hm]
        exact List.mem_cons_of_mem a (ih (by simp))

/-- When the entry at index `k` bounds every entry, `foldr max 0` equals it. -/
lemma foldr_max_eq_get {l : List ℕ} {k : ℕ} (hk : k < l.length)
    (hmax : ∀ j : Fin l.length, l.get j ≤ l.get ⟨k, hk⟩) :
    l.foldr max 0 = l.get ⟨k, hk⟩ := by
  have hne : l ≠ [] := by
    intro h0
    rw [h0] at hk
    exact absurd hk (by simp)
  have h1 : l.get ⟨k, hk⟩ ≤ l.foldr max 0 := le_foldr_max (List.get_mem l k hk)
  have h2 : l.foldr max 0 ≤ l.get ⟨k, hk⟩ := by
    obtain ⟨j, hj⟩ := List.mem_iff_get.mp (foldr_max_mem l hne)
    calc l.foldr max 0 = l.get j := hj.symm
    _ ≤ l.get ⟨k, hk⟩ := hmax j
  exact le_antisymm h2 h1

/-- `indexOf` returns `k` for the entry at `k` when no earlier entry equals it
(the stable left-to-right scan of JavaScript `Array.indexOf`). -/
lemma indexOf_of_first {l : List ℕ} {k : ℕ} (hk : k < l.length)
    (hfirst : ∀ j : Fin l.length, (j : ℕ) < k → l.get j ≠ l.get ⟨k, hk⟩) :
    l.indexOf (l.get ⟨k, hk⟩) = k := by
  induction l generalizing k with
  | nil => exact absurd hk (by simp)
  | cons a t ih =>
    cases k with
    | zero => exact List.indexOf_cons_self a t
    | succ m =>
      have hm : m < t.length := Nat.succ_lt_succ_iff.mp (by simpa using hk)
      have hget : (a :: t).get ⟨m + 1, hk⟩ = t.get ⟨m, hm⟩ := rfl
      have hne : a ≠ t.get ⟨m, hm⟩ := by
        have h0 := hfirst ⟨0, by simp⟩ (Nat.succ_pos m)
        rw [hget] at h0
        exact h0
      rw [hget, List.indexOf_cons_ne t hne]
      have ht : t.indexOf (t.get ⟨m, hm⟩) = m := by
        refine ih hm ?_
        intro j hj
        have h1 : ((j : ℕ) + 1) < (a :: t).length := by
          simpa using Nat.succ_lt_succ j.isLt
        have h2 := hfirst ⟨(j : ℕ) + 1, h1⟩ (Nat.succ_lt_succ hj)
        rw [hget] at h2
        exact h2
      rw [ht]

/-- The hue computed by `getPitchColor` when `k` is the first index
attaining the maximum of the snapshot. -/
lemma getPitchColorHue_first_max {l : List ℕ} {k : ℕ} (hk : k < l.length)
    (hmax : ∀ j : Fin l.length, l.get j ≤ l.get ⟨k, hk⟩)
    (hfirst : ∀ j : Fin l.length, (j : ℕ) < k → l.get j < l.get ⟨k, hk⟩) :
    Rose.getPitchColorHue l = (k : ℚ) / (l.length : ℚ) * 360 := by
  unfold Rose.getPitchColorHue
  rw [foldr_max_eq_get hk hmax, indexOf_of_first hk (fun j hj => (hfirst j hj).ne)]

end MaxIndexHelpers

/-- C3: when `k` is the first index attaining the maximum of a snapshot of
length `n` (in particular when the maximum is unique at `k`, and, for
several equal maxima, when `k` is the lowest such index), the hue computed
by `getPitchColor` equals `(k / n) * 360`, a value in `[0, 360)`. -/
theorem claim_C3_dominantBucketHue (l : List ℕ) (k : ℕ) (hk : k < l.length)
    (hmax : ∀ j : Fin l.length, l.get j ≤ l.get ⟨k, hk⟩)
    (hfirst : ∀ j : Fin l.length, (j : ℕ) < k → l.get j < l.get ⟨k, hk⟩) :
    Rose.getPitchColorHue l = (k : ℚ) / (l.length : ℚ) * 360 ∧
    0 ≤ Rose.getPitchColorHue l ∧ Rose.getPitchColorHue l < 360 := by
  have heq := getPitchColorHue_first_max hk hmax hfirst
  have hn : (0 : ℚ) < (l.length : ℚ) := by
    exact_mod_cast Nat.pos_of_ne_zero (fun h0 => by simp [h0] at hk)
  refine ⟨heq, ?_, ?_⟩
  · rw [heq]
    positivity
  · rw [heq]
    have hdiv : (k : ℚ) / (l.length : ℚ) < 1 := by
      rw [div_lt_one hn]
      exact_mod_cast hk
    nlinarith

/-- Witness for C3: in `[7, 9, 9, 2]` the maximum 9 first occurs at index 1,
so the hue is `(1/4) * 360 = 90`. -/
theorem claim_C3_dominantBucketHue_witness :
    Rose.getPitchColorHue [7, 9, 9, 2] = (1 : ℚ) / (4 : ℚ) * 360 ∧
    0 ≤ Rose.getPitchColorHue [7, 9, 9, 2] ∧ Rose.getPitchColorHue [7, 9, 9, 2] < 360 := by
  have h := claim_C3_dominantBucketHue [7, 9, 9, 2] 1 (by norm_num) (by decide) (by decide)
  simpa using h

/-- C6: whenever the tick recomputes a finite volume `v`, the delay passed
to the scheduler is exactly `10 - v * 900` milliseconds, and the next
animation callback is requested unconditionally — also for snapshots whose
volume makes the delay negative. -/
theorem claim_C6_rose_delay (currentTime : ℚ) (freqData : List ℕ) (s : Rose.AudioSt)
    (v : ℚ) (hv : Rose.updateAudioData freqData = JSNum.num v) :
    (Rose.drawAnimation currentTime freqData s).delay = JSNum.num (10 - v * 900) ∧
    (Rose.drawAnimation currentTime freqData s).nextCallbackRequested = true ∧
    (∃ loud : List ℕ, (∀ x ∈ loud, x ≤ 255) ∧
      ∃ w : ℚ, Rose.updateAudioData loud = JSNum.num w ∧ 10 - w * 900 < 0 ∧
        (Rose.drawAnimation currentTime loud s).nextCallbackRequested = true) := by
  refine ⟨?_, rfl, ?_⟩
  · simp only [Rose.drawAnimation, hv, JSNum.mulQ, jsSubQ]
  · refine ⟨[255], by norm_num, 255 / 128, ?_, by norm_num, rfl⟩
    simp [Rose.updateAudioData, jsDivQ, JSNum.divQ]

/-- Witness for C6 at the single-byte snapshot `[128]`, whose volume is 1
and whose delay is `10 - 900 = -890`. -/
theorem claim_C6_rose_delay_witness :
    (Rose.drawAnimation 0 [128] Rose.initAudioSt).delay = JSNum.num (10 - 1 * 900) ∧
    (Rose.drawAnimation 0 [128] Rose.initAudioSt).nextCallbackRequested = true := by
  have hv : Rose.updateAudioData [128] = JSNum.num 1 := by
    simp [Rose.updateAudioData, jsDivQ, JSNum.divQ]
  exact ⟨(claim_C6_rose_delay 0 [128] Rose.initAudioSt 1 hv).1,
    (claim_C6_rose_delay 0 [128] Rose.initAudioSt 1 hv).2.1⟩

/-- C7: the persistent volume starts at 0 (hence is nonnegative); every
tick on a nonempty byte-valued snapshot sets it to the finite value
`average / 128`, which lies in `[0, 255/128]`; and the all-255 snapshot
realizes a volume strictly greater than 1 — the value is not clamped. -/
theorem claim_C7_rose_volume :
    (Rose.initAudioSt.volume = JSNum.num 0 ∧ (0 : ℚ) ≤ 0) ∧
    (∀ (currentTime : ℚ) (freqData : List ℕ) (s : Rose.AudioSt),
      freqData ≠ [] → (∀ x ∈ freqData, x ≤ 255) →
      (Rose.drawAnimation currentTime freqData s).state.volume
        = JSNum.num ((freqData.sum : ℚ) / (freqData.length : ℚ) / 128) ∧
      0 ≤ (freqData.sum : ℚ) / (freqData.length : ℚ) / 128 ∧
      (freqData.sum : ℚ) / (freqData.length : ℚ) / 128 ≤ 255 / 128) ∧
    (∃ freqData : List ℕ, freqData ≠ [] ∧ (∀ x ∈ freqData, x ≤ 255) ∧
      (Rose.drawAnimation 0 freqData Rose.initAudioSt).state.volume
        = JSNum.num (255 / 128) ∧ (1 : ℚ) < 255 / 128) := by
  refine ⟨⟨rfl, le_rfl⟩, ?_, ?_⟩
  · intro currentTime freqData s hne hbyte
    have hlpos : 0 < freqData.length := List.length_pos.mpr hne
    have hl : (freqData.length : ℚ) ≠ 0 := by exact_mod_cast hlpos.ne'
    have hmean0 : 0 ≤ (freqData.sum : ℚ) / (freqData.length : ℚ) :=
      div_nonneg (by positivity) (by positivity)
    have hsum : freqData.sum ≤ freqData.length * 255 := by
      have := List.sum_le_card_nsmul freqData 255 hbyte
      simpa [smul_eq_mul] using this
    have hmean255 : (freqData.sum : ℚ) / (freqData.length : ℚ) ≤ 255 := by
      rw [div_le_iff₀ (by positivity)]
      calc (freqData.sum : ℚ) ≤ (freqData.length : ℚ) * 255 := by exact_mod_cast hsum
      _ = 255 * (freqData.length : ℚ) := by ring
    refine ⟨?_, by positivity, ?_⟩
    · simp only [Rose.drawAnimation, Rose.updateAudioData, jsDivQ, if_neg hl, JSNum.divQ]
      norm_num
    · have h128 : (0 : ℚ) < 128 := by norm_num
      exact (div_le_div_iff_of_pos_right h128).mpr hmean255
  · refine ⟨[255], by norm_num, by norm_num, ?_, by norm_num⟩
    simp [Rose.drawAnimation, Rose.updateAudioData, jsDivQ, JSNum.divQ]

/-- Witness for C7 at the concrete snapshot `[64, 192]`. -/
theorem claim_C7_rose_volume_witness :
    (Rose.drawAnimation 0 [64, 192] Rose.initAudioSt).state.volume
      = JSNum.num ((([64, 192] : List ℕ).sum : ℚ) / (([64, 192] : List ℕ).length : ℚ) / 128) ∧
    0 ≤ (([64, 192] : List ℕ).sum : ℚ) / (([64, 192] : List ℕ).length : ℚ) / 128 ∧
    (([64, 192] : List ℕ).sum : ℚ) / (([64, 192] : List ℕ).length : ℚ) / 128 ≤ 255 / 128 :=
  claim_C7_rose_volume.2.1 0 [64, 192] Rose.initAudioSt (by decide) (by decide)

section Snapshot2048Helpers

/-- The scenario snapshot has length 2048. -/
lemma snapshot2048_length : snapshot2048.length = 2048 := by
  unfold snapshot2048
  rw [List.length_append, List.length_replicate, List.length_cons, List.length_replicate]

/-- The scenario snapshot is nonempty. -/
lemma snapshot2048_ne_nil : snapshot2048 ≠ [] := by
  intro h
  have hlen := snapshot2048_length
  rw [h] at hlen
  exact absurd hlen (by norm_num)

/-- The scenario snapshot sums to 255. -/
lemma snapshot2048_sum : snapshot2048.sum = 255 := by
  unfold snapshot2048
  rw [List.sum_append, List.sum_cons, List.sum_replicate, List.sum_replicate,
    smul_zero, smul_zero]
  norm_num

/-- Folding `max` over a block of zero samples leaves the accumulator. -/
lemma foldr_max_replicate_zero (n acc : ℕ) : (List.replicate n 0).foldr max acc = acc := by
  induction n with
  | zero => rfl
  | succ m ih => simp [List.replicate_succ, ih]

/-- The maximum of the scenario snapshot is 255. -/
lemma snapshot2048_foldr_max : snapshot2048.foldr max 0 = 255 := by
  unfold snapshot2048
  rw [List.foldr_append, List.foldr_cons, foldr_max_replicate_zero,
    foldr_max_replicate_zero]
  rfl

/-- The first (and only) index of 255 in the scenario snapshot is 1024. -/
lemma snapshot2048_indexOf : snapshot2048.indexOf 255 = 1024 := by
  unfold snapshot2048
  have hnm : (255 : ℕ) ∉ List.replicate 1024 0 := by
    rw [List.mem_replicate]
    rintro ⟨-, h⟩
    exact absurd h (by norm_num)
  rw [List.indexOf_append_of_not_mem hnm, List.indexOf_cons_self, List.length_replicate]

end Snapshot2048Helpers

/-- C8: on the 2048-byte snapshot that is 0 everywhere except 255 at index
1024, the average magnitude is exactly `255/2048` (about 0.1245), the
dominant hue is exactly 180 degrees, the sphere scale set that tick is
exactly `1 + (255/2048)/128 = 262399/262144` (about 1.00097), and the rose
volume is exactly `255/262144` (about 0.001). -/
theorem claim_C8_end_to_end :
    Tool2.getAverageFrequency snapshot2048 = JSNum.num (255 / 2048) ∧
    Rose.getPitchColorHue snapshot2048 = 180 ∧
    (Tool2.animateVisual (255 / 2048) 0 0 Tool2.initialVisual).scaleX = 262399 / 262144 ∧
    Rose.updateAudioData snapshot2048 = JSNum.num (255 / 262144) := by
  have hsum : (snapshot2048.sum : ℚ) = 255 := by
    rw [snapshot2048_sum]
    norm_num
  have hlen : (snapshot2048.length : ℚ) = 2048 := by
    rw [snapshot2048_length]
    norm_num
  refine ⟨?_, ?_, ?_, ?_⟩
  · rw [getAverageFrequency_of_ne_nil snapshot2048_ne_nil, hsum, hlen]
  · unfold Rose.getPitchColorHue
    rw [snapshot2048_foldr_max, snapshot2048_indexOf, hlen]
    norm_num
  · simp only [Tool2.animateVisual]
    norm_num
  · simp only [Rose.updateAudioData, jsDivQ, hsum, hlen, JSNum.divQ]
    norm_num [jsDivQ]

/-- Witness for the amended C1 at `k = 2` subsequent ticks. -/
theorem claim_C1_denied_run_witness :
    (Tool2.sphereFailRun 2).consoleErrors = 1 ∧
    (Tool2.sphereFailRun 2).rafRequests = 2 + 1 ∧
    (Tool2.sphereFailRun 2).exceptionsEscaped = 2 + 1 ∧
    (Tool2.sphereFailRun 2).renders = 0 ∧
    (Rose.startClick false Rose.initPageSt).animationStarted = false ∧
    (Rose.startClick false Rose.initPageSt).consoleErrors = 0 ∧
    (Rose.startClick false Rose.initPageSt).unhandledRejection = true :=
  claim_C1_denied_run 2

/-- Witness for the amended C9 at `k = 3` subsequent ticks. -/
theorem claim_C9_sphere_error_surfacing_witness :
    (Tool2.sphereFailRun 3).consoleErrors = 1 ∧
    (Tool2.sphereFailRun 3).startButtonVisible = true ∧
    (Tool2.sphereFailRun 3).canvasAppended = true ∧
    (Tool2.sphereFailRun 3).rafRequests = 3 + 1 ∧
    (Tool2.sphereFailRun 3).renders = 0 :=
  claim_C9_sphere_error_surfacing 3
